import Mathlib

/-!
# Verification of the tsParticles core lifecycle and option-loading slice

Shallow embedding of `src/Core/Container.ts` and
`src/Plugins/PolygonMask/Options/Classes/PolygonMask.ts`.

Modelling conventions:
* JavaScript numbers are embedded as exact rationals (`ℚ`); the arithmetic of
  the density algorithm (`*`, `/`, `Math.abs`) is mirrored on `ℚ`.
* `delete this.field` is modelled by fields of type `Option _` set to `none`;
  a method call on a deleted field is a thrown `TypeError`, modelled by
  `Except String _`.  A thrown exception discards the embedded state, so
  theorems about throwing calls speak only about the `Except` outcome.
* The browser's animation-frame queue is part of the state:
  `outstanding` is the list of pending request handles,
  `nextHandle` the fresh-handle counter, and `requestFrame` / `cancelAnimation`
  manipulate them the way `window.customRequestAnimationFrame` /
  `window.cancelAnimationFrame` do (allocate fresh handle / remove by handle).
* `performance.now()` is the environment clock `timeNow`, carried in the state
  and never advanced by the container itself.
* Plugins are capability records: a `has…` flag per optional hook and a call
  counter per hook, so that "the hook was invoked" is observable.
-/

namespace TsParticles

/-- A plugin instance: duck-typed capability record.  Presence of a hook is a
`has…` flag, invocation of a hook bumps the matching counter
(`src/Core/Interfaces/IPlugin.ts` contract as used by `Container`). -/
structure Plugin where
  hasInit : Bool
  hasStart : Bool
  hasStop : Bool
  hasPause : Bool
  hasPlay : Bool
  initCount : Nat
  startCount : Nat
  stopCount : Nat
  pauseCount : Nat
  playCount : Nat
deriving DecidableEq, Repr

/-- `if (plugin.play) plugin.play();` -/
def Plugin.notifyPlay (p : Plugin) : Plugin :=
  if p.hasPlay then { p with playCount := p.playCount + 1 } else p

/-- `if (plugin.pause) plugin.pause();` -/
def Plugin.notifyPause (p : Plugin) : Plugin :=
  if p.hasPause then { p with pauseCount := p.pauseCount + 1 } else p

/-- `if (plugin.stop !== undefined) plugin.stop();` -/
def Plugin.notifyStop (p : Plugin) : Plugin :=
  if p.hasStop then { p with stopCount := p.stopCount + 1 } else p

/-- `if (plugin.startAsync !== undefined) ... else if (plugin.start !== undefined) plugin.start();` -/
def Plugin.notifyStart (p : Plugin) : Plugin :=
  if p.hasStart then { p with startCount := p.startCount + 1 } else p

/-- `if (plugin.init !== undefined) plugin.init();` -/
def Plugin.notifyInit (p : Plugin) : Plugin :=
  if p.hasInit then { p with initCount := p.initCount + 1 } else p

/-- A shape drawer registered in `container.drawers`: only the optional
`destroy` hook is observable for the claims at hand. -/
structure ShapeDrawer where
  hasDestroy : Bool
deriving DecidableEq, Repr

/-- `this.retina` subordinate (`src/Core/Retina.ts` is not under `src/`; only
the two fields `Container` reads are modelled). -/
structure Retina where
  isRetina : Bool
  pixelRatio : ℚ
deriving DecidableEq, Repr

/-- Modelled from the spec: `Retina.reset()` (`src/Core/Retina.ts` is not under
`src/`) — "resets retina scaling". -/
def Retina.reset (_ : Retina) : Retina :=
  { isRetina := false, pixelRatio := 1 }

/-- The canvas backing element with its pixel dimensions. -/
structure CanvasElement where
  width : ℚ
  height : ℚ
deriving DecidableEq, Repr

/-- `this.canvas` subordinate: may or may not have a backing element. -/
structure Canvas where
  element : Option CanvasElement
deriving DecidableEq, Repr

/-- Modelled from the spec: `Canvas.destroy()` (`src/Core/Canvas.ts` is not
under `src/`) — "releases the surface and clears any retained sizing". -/
def Canvas.destroySurface (_ : Canvas) : Canvas :=
  { element := none }

/-- Modelled from the spec: the particle collection
(`src/Core/Particles.ts` is not under `src/`).  "`count`: current size";
`push`/`removeQuantity` below follow §4.2 of the spec.  The count is kept as an
exact rational because `Container.densityAutoParticles` passes rational
quantities to `push`/`removeQuantity`. -/
structure Particles where
  count : ℚ
deriving DecidableEq, Repr

/-- Modelled from the spec: "`push(quantity)`: create `quantity` new particles". -/
def Particles.push (p : Particles) (quantity : ℚ) : Particles :=
  { count := p.count + quantity }

/-- Modelled from the spec: "`removeQuantity(quantity)`: remove up to `quantity`
particles ... must never remove more than `quantity` or underflow below zero". -/
def Particles.removeQuantity (p : Particles) (quantity : ℚ) : Particles :=
  { count := p.count - min quantity p.count }

/-- Modelled from the spec: "clears particles" on `stop()`. -/
def Particles.clear (_ : Particles) : Particles :=
  { count := 0 }

/-- `options.particles.number.density` slice of the options tree. -/
structure Density where
  enable : Bool
  area : ℚ
deriving DecidableEq, Repr

/-- `options.particles.number` slice of the options tree. -/
structure ParticlesNumber where
  value : ℚ
  density : Density
deriving DecidableEq, Repr

/-- The slice of `this.options` that `Container` reads in the embedded
methods (`options.particles.number.*`). -/
structure ContainerOptions where
  number : ParticlesNumber
deriving DecidableEq, Repr

/-- The `Container` state (`src/Core/Container.ts`), together with the
environment pieces its methods touch: the animation-frame queue
(`outstanding`, `nextHandle`) and the clock (`timeNow`).  Subordinates removed
by `delete this.field` in `destroy()` are `Option` fields; `eventListeners`,
`interactivity`, `bubble`, `repulse` and `drawer` (the `FrameManager`) carry no
state the claims observe beyond their presence, so they are `Option Unit`. -/
structure Container where
  started : Bool
  destroyed : Bool
  paused : Bool
  pageHidden : Bool
  lastFrameTime : ℚ
  «retina» : Option Retina
  canvas : Option Canvas
  options : Option ContainerOptions
  particles : Option Particles
  interactivity : Option Unit
  bubble : Option Unit
  repulse : Option Unit
  drawer : Option Unit
  eventListeners : Option Unit
  plugins : List Plugin
  drawers : List ShapeDrawer
  drawAnimationFrame : Option Nat
  outstanding : List Nat
  nextHandle : Nat
  timeNow : ℚ
deriving DecidableEq, Repr

namespace Container

/-- Dereference a possibly-deleted subordinate: accessing a method on a
`delete`d field throws a `TypeError`. -/
def req {α : Type} (field : Option α) (msg : String) : Except String α :=
  match field with
  | some a => .ok a
  | none => .error msg

/-- `Container.requestFrame`: schedules a callback, returning a fresh handle;
the request joins the browser's pending queue. -/
def requestFrame (c : Container) : Container × Nat :=
  ({ c with outstanding := c.outstanding ++ [c.nextHandle],
            nextHandle := c.nextHandle + 1 }, c.nextHandle)

/-- `Container.cancelAnimation(handle)`: removes the request with that handle
from the browser's pending queue (a no-op if it is not pending). -/
def cancelAnimation (c : Container) (handle : Nat) : Container :=
  { c with outstanding := c.outstanding.erase handle }

/--
```
public play(force?: boolean): void {
    const needsUpdate = this.paused || force;
    if (this.paused) { this.paused = false; }
    if (needsUpdate) {
        for (const plugin of this.plugins) { if (plugin.play) { plugin.play(); } }
        this.lastFrameTime = performance.now();
    }
    this.drawAnimationFrame = Container.requestFrame((t) => this.drawer.nextFrame(t));
}
```
The closure passed to `requestFrame` is not executed at call time, so `play`
never dereferences `this.drawer` and is total. -/
def play (c : Container) (force : Bool) : Container :=
  let needsUpdate := c.paused || force
  let c := if c.paused then { c with paused := false } else c
  let c :=
    if needsUpdate then
      { c with plugins := c.plugins.map Plugin.notifyPlay, lastFrameTime := c.timeNow }
    else c
  let (c, handle) := c.requestFrame
  { c with drawAnimationFrame := some handle }

/--
```
public pause(): void {
    if (this.drawAnimationFrame !== undefined) {
        Container.cancelAnimation(this.drawAnimationFrame);
        delete this.drawAnimationFrame;
    }
    if (!this.paused) {
        for (const plugin of this.plugins) { if (plugin.pause) { plugin.pause(); } }
        if (!this.pageHidden) { this.paused = true; }
    }
}
``` -/
def pause (c : Container) : Container :=
  let c :=
    match c.drawAnimationFrame with
    | some handle => { c.cancelAnimation handle with drawAnimationFrame := none }
    | none => c
  if !c.paused then
    let c := { c with plugins := c.plugins.map Plugin.notifyPause }
    if !c.pageHidden then { c with paused := true } else c
  else c

/-- `public getAnimationStatus(): boolean { return !this.paused; }` -/
def getAnimationStatus (c : Container) : Bool :=
  !c.paused

/--
```
public densityAutoParticles(): void {
    if (!(this.canvas.element && this.options.particles.number.density.enable)) { return; }
    let area = this.canvas.element.width * this.canvas.element.height / 1000;
    if (this.retina.isRetina) { area /= this.retina.pixelRatio * 2; }
    const optParticlesNumber = this.options.particles.number.value;
    const density = this.options.particles.number.density.area;
    const particlesNumber = area * optParticlesNumber / density;
    const particlesCount = this.particles.count;
    if (particlesCount < particlesNumber) { this.particles.push(Math.abs(particlesNumber - particlesCount)); }
    else if (particlesCount > particlesNumber) { this.particles.removeQuantity(particlesCount - particlesNumber); }
}
```
The guard short-circuits: when the backing element is absent, `this.options` is
never read. -/
def densityAutoParticles (c : Container) : Except String Container := do
  let canvas ← req c.canvas "canvas deleted"
  match canvas.element with
  | none => return c
  | some el => do
    let opts ← req c.options "options deleted"
    if !opts.number.density.enable then
      return c
    else do
      let ret ← req c.«retina» "retina deleted"
      let parts ← req c.particles "particles deleted"
      let area0 : ℚ := el.width * el.height / 1000
      let area : ℚ := if ret.isRetina then area0 / (ret.pixelRatio * 2) else area0
      let particlesNumber : ℚ := area * opts.number.value / opts.number.density.area
      let particlesCount : ℚ := parts.count
      if particlesCount < particlesNumber then
        return { c with particles := some (parts.push |particlesNumber - particlesCount|) }
      else if particlesCount > particlesNumber then
        return { c with particles := some (parts.removeQuantity (particlesCount - particlesNumber)) }
      else
        return c

/--
```
public stop(): void {
    if (!this.started) { return; }
    this.started = false;
    this.eventListeners.removeListeners();
    this.pause();
    this.particles.clear();
    this.retina.reset();
    this.canvas.clear();
    for (const plugin of this.plugins) { if (plugin.stop !== undefined) { plugin.stop(); } }
    this.plugins = [];
    delete this.particles.lineLinkedColor;
}
```
`canvas.clear()` only wipes pixels and `removeListeners()` only detaches DOM
handlers; neither changes tracked state, but both throw if the subordinate was
`delete`d. -/
def stop (c : Container) : Except String Container := do
  if !c.started then
    return c
  else do
    let c := { c with started := false }
    let _ ← req c.eventListeners "eventListeners deleted"
    let c := c.pause
    let parts ← req c.particles "particles deleted"
    let c := { c with particles := some parts.clear }
    let ret ← req c.«retina» "retina deleted"
    let c := { c with «retina» := some ret.reset }
    let _ ← req c.canvas "canvas deleted"
    let c := { c with plugins := (c.plugins.map Plugin.notifyStop) }
    return { c with plugins := [] }

/-- The private `init()`:
```
private init(): void {
    this.retina.init();
    this.canvas.init();
    this.particles.init();
    for (const plugin of this.plugins) { if (plugin.init !== undefined) { plugin.init(); } }
    this.densityAutoParticles();
}
```
`retina.init()`, `canvas.init()` and `particles.init()` belong to subordinates
whose sources are outside the embedded slice; they establish sizing/scaling and
the initial population, none of which the claims observe, so they are modelled
as presence-checked identities. -/
def initInternal (c : Container) : Except String Container := do
  let _ ← req c.«retina» "retina deleted"
  let _ ← req c.canvas "canvas deleted"
  let _ ← req c.particles "particles deleted"
  let c := { c with plugins := c.plugins.map Plugin.notifyInit }
  c.densityAutoParticles

/--
```
public async start(): Promise<void> {
    if (this.started) { return; }
    for (const plugin of Plugins.getAvailablePlugins(this)) { this.plugins.push(plugin); }
    this.started = true;
    this.eventListeners.addListeners();
    for (const plugin of this.plugins) { startAsync ?? start }
    ... resolve this.drawers from this.options.particles.shape.type ...
    ... await drawer.init(this) ...
    this.init();
    this.play();
}
```
`Plugins.getAvailablePlugins` and `CanvasUtils.getShapeDrawer` are external
registries: their results enter as the arguments `avail` and `availDrawers`.
Resolving drawers dereferences `this.options`, so it throws when `options` was
`delete`d.  An exception leaves the `Except` in its error state (the partial
JavaScript mutations before the throw are not observed by any claim). -/
def start (c : Container) (avail : List Plugin) (availDrawers : List ShapeDrawer) :
    Except String Container := do
  if c.started then
    return c
  else do
    let c := { c with plugins := c.plugins ++ avail }
    let c := { c with started := true }
    let _ ← req c.eventListeners "eventListeners deleted"
    let c := { c with plugins := c.plugins.map Plugin.notifyStart }
    let _ ← req c.options "options deleted"
    let c := { c with drawers := availDrawers }
    let c ← c.initInternal
    return c.play false

/--
```
public destroy(): void {
    this.stop();
    this.retina.reset();
    this.canvas.destroy();
    delete this.interactivity; delete this.options; delete this.retina;
    delete this.canvas; delete this.particles; delete this.bubble;
    delete this.repulse; delete this.drawer; delete this.eventListeners;
    for (const type in this.drawers) {
        const drawer = this.drawers[type];
        if (drawer.destroy !== undefined) { drawer.destroy(this); }
    }
    this.drawers = {};
    this.destroyed = true;
}
```
Note there is no `destroyed` guard: a second call reaches
`this.retina.reset()` with `retina` already `delete`d and throws. -/
def destroy (c : Container) : Except String Container := do
  let c ← c.stop
  let ret ← req c.«retina» "retina deleted"
  let c := { c with «retina» := some ret.reset }
  let cv ← req c.canvas "canvas deleted"
  let c := { c with canvas := some cv.destroySurface }
  let c := { c with
    interactivity := none, options := none, «retina» := none, canvas := none,
    particles := none, bubble := none, repulse := none, drawer := none,
    eventListeners := none }
  let _ := c.drawers.filter ShapeDrawer.hasDestroy
  let c := { c with drawers := [] }
  return { c with destroyed := true }

/-- The constructor: `started = false`, `destroyed = false`, `paused = true`,
`lastFrameTime = 0`, `pageHidden = false`, fresh subordinates, empty plugin and
drawer tables, no scheduled frame.  The options tree produced by the preset and
params loading (external to this slice) enters as the argument `opts`; the
canvas element and retina state enter likewise. -/
def fresh (opts : ContainerOptions) (cv : Canvas) (ret : Retina) : Container where
  started := false
  destroyed := false
  paused := true
  pageHidden := false
  lastFrameTime := 0
  «retina» := some ret
  canvas := some cv
  options := some opts
  particles := some { count := 0 }
  interactivity := some ()
  bubble := some ()
  repulse := some ()
  drawer := some ()
  eventListeners := some ()
  plugins := []
  drawers := []
  drawAnimationFrame := none
  outstanding := []
  nextHandle := 0
  timeNow := 0

end Container

/-! ## PolygonMask options (`src/Plugins/PolygonMask/Options/Classes/PolygonMask.ts`) -/

/-- The `Type` enum of the PolygonMask plugin (`../../Enums`); the embedded
code only distinguishes `none` from the rest. -/
inductive MaskType
  | inlineType
  | inside
  | outside
  | noneType
deriving DecidableEq, Repr

/-- 2D coordinates (`ICoordinates`). -/
structure Coordinates where
  x : ℚ
  y : ℚ
deriving DecidableEq, Repr

/-- Modelled from the spec: the `Inline` sub-option
(`Options/Classes/Inline.ts` is not under `src/`) — a mergeable sub-option
holding the `arrangement` scalar.  Arrangement values are kept abstract as
strings. -/
structure Inline where
  arrangement : String
deriving DecidableEq, Repr

/-- The recursive-partial input for `Inline`. -/
structure InlineInput where
  arrangement : Option String
deriving DecidableEq, Repr

/-- Modelled from the spec: `Inline.load` — "scalar fields overwrite only when
the incoming value is not undefined". -/
def Inline.load (i : Inline) (data : Option InlineInput) : Inline :=
  match data with
  | none => i
  | some d =>
    match d.arrangement with
    | none => i
    | some a => { arrangement := a }

/-- Modelled from the spec: the `Draw` sub-option
(`Options/Classes/Draw.ts` is not under `src/`) — represented by its `enable`
scalar. -/
structure Draw where
  enable : Bool
deriving DecidableEq, Repr

/-- The recursive-partial input for `Draw`. -/
structure DrawInput where
  enable : Option Bool
deriving DecidableEq, Repr

/-- Modelled from the spec: `Draw.load` — field-by-field partial merge. -/
def Draw.load (dr : Draw) (data : Option DrawInput) : Draw :=
  match data with
  | none => dr
  | some d =>
    match d.enable with
    | none => dr
    | some e => { enable := e }

/-- Modelled from the spec: the `Move` sub-option
(`Options/Classes/Move.ts` is not under `src/`) — represented by its `radius`
scalar. -/
structure Move where
  radius : ℚ
deriving DecidableEq, Repr

/-- The recursive-partial input for `Move`. -/
structure MoveInput where
  radius : Option ℚ
deriving DecidableEq, Repr

/-- Modelled from the spec: `Move.load` — field-by-field partial merge. -/
def Move.load (m : Move) (data : Option MoveInput) : Move :=
  match data with
  | none => m
  | some d =>
    match d.radius with
    | none => m
    | some r => { radius := r }

/-- Modelled from the spec: `LocalSvg` (`Options/Classes/LocalSvg.ts` is not
under `src/`) — the locally-supplied SVG path data. -/
structure LocalSvg where
  path : List String
deriving DecidableEq, Repr

/-- The recursive-partial input for `LocalSvg`. -/
structure LocalSvgInput where
  path : Option (List String)
deriving DecidableEq, Repr

/-- Modelled from the spec: `LocalSvg.load` — field-by-field partial merge. -/
def LocalSvg.load (s : LocalSvg) (data : Option LocalSvgInput) : LocalSvg :=
  match data with
  | none => s
  | some d =>
    match d.path with
    | none => s
    | some p => { path := p }

/-- `data?: string | LocalSvg` of `PolygonMask`. -/
inductive MaskData
  | str (s : String)
  | svg (l : LocalSvg)
deriving DecidableEq, Repr

/-- The incoming `data.data` union in a recursive-partial input. -/
inductive MaskDataInput
  | str (s : String)
  | svg (l : LocalSvgInput)
deriving DecidableEq, Repr

/-- The `PolygonMask` option class.  The deprecated `inlineArrangement`
getter/setter aliases `inline.arrangement` and carries no state of its own. -/
structure PolygonMask where
  draw : Draw
  enable : Bool
  inline : Inline
  move : Move
  position : Option Coordinates
  scale : ℚ
  type : MaskType
  url : Option String
  data : Option MaskData
deriving DecidableEq, Repr

/-- `RecursivePartial<IPolygonMask>`: every field possibly absent, including
the deprecated flat `inlineArrangement`. -/
structure PolygonMaskInput where
  draw : Option DrawInput
  enable : Option Bool
  inline : Option InlineInput
  inlineArrangement : Option String
  move : Option MoveInput
  position : Option Coordinates
  scale : Option ℚ
  type : Option MaskType
  url : Option String
  data : Option MaskDataInput
deriving DecidableEq, Repr

/-- The all-absent input `{}`. -/
def PolygonMaskInput.empty : PolygonMaskInput where
  draw := none
  enable := none
  inline := none
  inlineArrangement := none
  move := none
  position := none
  scale := none
  type := none
  url := none
  data := none

namespace PolygonMask

/-- The constructor: `draw = new Draw()` (enable `false`), `enable = false`,
`inline = new Inline()`, `move = new Move()`, `scale = 1`, `type = Type.none`;
`position`, `url`, `data` stay `undefined`.  The defaults of the spec-modelled
sub-options enter as arguments. -/
def fresh (dr : Draw) (inl : Inline) (mv : Move) : PolygonMask where
  draw := dr
  enable := false
  inline := inl
  move := mv
  position := none
  scale := 1
  type := MaskType.noneType
  url := none
  data := none

/--
```
load(data?: RecursivePartial<IPolygonMask>): void {
    if (data !== undefined) {
        this.draw.load(data.draw);
        const inline = data.inline ?? { arrangement: data.inlineArrangement };
        if (inline !== undefined) { this.inline.load(inline); }
        this.move.load(data.move);
        if (data.scale !== undefined) { this.scale = data.scale; }
        if (data.type !== undefined) { this.type = data.type; }
        if (data.enable !== undefined) { this.enable = data.enable; }
        else { this.enable = this.type !== Type.none; }
        if (data.url !== undefined) { this.url = data.url; }
        if (data.data !== undefined) {
            if (typeof data.data === "string") { this.data = data.data; }
            else { this.data = new LocalSvg(); this.data.load(data.data); }
        }
        if (data.position !== undefined) {
            this.position = deepExtend({}, data.position) as ICoordinates;
        }
    }
}
```
The `??` fallback object is always defined, so `this.inline.load` is always
invoked (with `{arrangement: data.inlineArrangement}` when `data.inline` is
absent).  `new LocalSvg()` starts from the constructor default, entering here
as the argument `freshSvg`. -/
def load (m : PolygonMask) (freshSvg : LocalSvg) (data : Option PolygonMaskInput) :
    PolygonMask :=
  match data with
  | none => m
  | some d =>
    let m := { m with draw := m.draw.load d.draw }
    let inl : InlineInput := d.inline.getD { arrangement := d.inlineArrangement }
    let m := { m with inline := m.inline.load (some inl) }
    let m := { m with move := m.move.load d.move }
    let m := match d.scale with
      | none => m
      | some s => { m with scale := s }
    let m := match d.type with
      | none => m
      | some t => { m with type := t }
    let m := match d.enable with
      | some e => { m with enable := e }
      | none => { m with enable := decide (m.type ≠ MaskType.noneType) }
    let m := match d.url with
      | none => m
      | some u => { m with url := some u }
    let m := match d.data with
      | none => m
      | some (.str s) => { m with data := some (.str s) }
      | some (.svg li) => { m with data := some (.svg (freshSvg.load (some li))) }
    match d.position with
    | none => m
    | some p => { m with position := some p }

end PolygonMask

/-! ## Concrete fixtures -/

/-- Options with the library defaults for the fields the container reads
(`number.value = 100`, density enabled over `area = 800`). -/
def testOptions : ContainerOptions :=
  { number := { value := 100, density := { enable := true, area := 800 } } }

/-- A canvas with a 1000×1000 backing element (usable area exactly 1000). -/
def testCanvas : Canvas := { element := some { width := 1000, height := 1000 } }

/-- A non-retina surface. -/
def testRetina : Retina := { isRetina := false, pixelRatio := 1 }

/-- A freshly constructed live container. -/
def c0 : Container := Container.fresh testOptions testCanvas testRetina

/-- A plugin implementing every optional hook, no hook invoked yet. -/
def testPlugin : Plugin where
  hasInit := true
  hasStart := true
  hasStop := true
  hasPause := true
  hasPlay := true
  initCount := 0
  startCount := 0
  stopCount := 0
  pauseCount := 0
  playCount := 0

/-- Default sub-options for a fresh `PolygonMask`. -/
def mask0 : PolygonMask :=
  PolygonMask.fresh { enable := false } { arrangement := "one-per-point" } { radius := 10 }

/-- The `new LocalSvg()` constructor default. -/
def svg0 : LocalSvg := { path := [] }

/-- The container after `play()` on the fresh container: one frame request
pending, handle tracking it. -/
def cPlaying : Container := c0.play false

/-- The container after two consecutive `play()` calls on the fresh
container. -/
def cDouble : Container := (c0.play false).play false

/-- The state after the first successful `destroy()` of the fresh container. -/
def c0destroyed : Container := (c0.destroy).toOption.getD c0

/-- Options with `number.value = 1` over density `area = 3`: the density
target `1 * 1000 / 3` is not an integer. -/
def opts13 : ContainerOptions :=
  { number := { value := 1, density := { enable := true, area := 3 } } }

/-- A fresh container whose density target is the non-integer `1000 / 3`. -/
def c13 : Container := Container.fresh opts13 testCanvas testRetina

/-- `mask0` after loading `{enable: true}` (all other fields absent). -/
def maskEnabled : PolygonMask :=
  mask0.load svg0 (some { PolygonMaskInput.empty with enable := some true })

/-! ## Helper lemmas -/

/-- The particle target of the density algorithm:
`(width * height / 1000 [ / (pixelRatio * 2) on retina ]) * value / density.area`. -/
def densityTarget (el : CanvasElement) (r : Retina) (o : ContainerOptions) : ℚ :=
  (if r.isRetina then el.width * el.height / 1000 / (r.pixelRatio * 2)
   else el.width * el.height / 1000) * o.number.value / o.number.density.area

theorem densityAuto_noop_noElement (c : Container) (cv : Canvas)
    (hc : c.canvas = some cv) (hel : cv.element = none) :
    c.densityAutoParticles = .ok c := by
  simp [Container.densityAutoParticles, Container.req, hc, hel,
    Bind.bind, Except.bind, pure, Except.pure]

theorem densityAuto_noop_disabled (c : Container) (cv : Canvas) (o : ContainerOptions)
    (hc : c.canvas = some cv) (ho : c.options = some o)
    (hen : o.number.density.enable = false) :
    c.densityAutoParticles = .ok c := by
  rcases hel : cv.element with _ | el
  · exact densityAuto_noop_noElement c cv hc hel
  · simp [Container.densityAutoParticles, Container.req, hc, hel, ho, hen,
      Bind.bind, Except.bind, pure, Except.pure]

/-- Closed form of one enabled run of `densityAutoParticles`, exactly the
branch structure of the source. -/
theorem densityAuto_run (c : Container) (cv : Canvas) (el : CanvasElement)
    (o : ContainerOptions) (r : Retina) (p : Particles)
    (hc : c.canvas = some cv) (hel : cv.element = some el)
    (ho : c.options = some o) (hr : c.«retina» = some r) (hp : c.particles = some p)
    (hen : o.number.density.enable = true) :
    c.densityAutoParticles = .ok { c with particles := some (
      if p.count < densityTarget el r o then
        p.push |densityTarget el r o - p.count|
      else if p.count > densityTarget el r o then
        p.removeQuantity (p.count - densityTarget el r o)
      else p) } := by
  simp only [Container.densityAutoParticles, Container.req, hc, hel, ho, hr, hp, hen,
    Bind.bind, Except.bind, pure, Except.pure, densityTarget, Bool.not_true,
    Bool.false_eq_true, if_false]
  split_ifs <;> try rfl
  all_goals try rw [← hp]
  all_goals rw [← hc, ← ho, ← hr]

/-- `pause()` only touches the frame request, the plugin list and the
`paused` flag; every other field is preserved. -/
theorem pause_fields (c : Container) :
    c.pause.started = c.started ∧ c.pause.particles = c.particles ∧
    c.pause.«retina» = c.«retina» ∧ c.pause.canvas = c.canvas ∧
    c.pause.options = c.options ∧ c.pause.eventListeners = c.eventListeners ∧
    c.pause.destroyed = c.destroyed ∧ c.pause.pageHidden = c.pageHidden := by
  unfold Container.pause Container.cancelAnimation
  cases c.drawAnimationFrame <;> dsimp only <;> split_ifs <;>
    exact ⟨rfl, rfl, rfl, rfl, rfl, rfl, rfl, rfl⟩

theorem pause_started (c : Container) : c.pause.started = c.started :=
  (pause_fields c).1

theorem pause_particles (c : Container) : c.pause.particles = c.particles :=
  (pause_fields c).2.1

theorem pause_retina (c : Container) : c.pause.«retina» = c.«retina» :=
  (pause_fields c).2.2.1

theorem pause_canvas (c : Container) : c.pause.canvas = c.canvas :=
  (pause_fields c).2.2.2.1

theorem pause_options (c : Container) : c.pause.options = c.options :=
  (pause_fields c).2.2.2.2.1

theorem pause_eventListeners (c : Container) : c.pause.eventListeners = c.eventListeners :=
  (pause_fields c).2.2.2.2.2.1

theorem pause_destroyed (c : Container) : c.pause.destroyed = c.destroyed :=
  (pause_fields c).2.2.2.2.2.2.1

/-- `stop()` early-returns when the container is not started. -/
theorem stop_noop (c : Container) (hst : c.started = false) : c.stop = .ok c := by
  simp [Container.stop, hst, pure, Except.pure]

/-- `start()` early-returns when the container is already started. -/
theorem start_noop (c : Container) (hst : c.started = true)
    (avail : List Plugin) (ds : List ShapeDrawer) : c.start avail ds = .ok c := by
  simp [Container.start, hst, pure, Except.pure]

/-- Closed form of `stop()` on a started, live container. -/
theorem stop_run (c : Container) (p : Particles)
    (hst : c.started = true) (he : c.eventListeners.isSome)
    (hp : c.particles = some p) (hr : c.«retina».isSome) (hcv : c.canvas.isSome) :
    c.stop = .ok { ({ c with started := false } : Container).pause with
      particles := some { count := 0 },
      «retina» := some { isRetina := false, pixelRatio := 1 },
      plugins := [] } := by
  obtain ⟨u, he⟩ := Option.isSome_iff_exists.mp he
  obtain ⟨r, hr⟩ := Option.isSome_iff_exists.mp hr
  obtain ⟨cv, hcv⟩ := Option.isSome_iff_exists.mp hcv
  simp [Container.stop, hst, Container.req, he, hp, hr, hcv,
    pause_particles, pause_retina, pause_canvas,
    Bind.bind, Except.bind, pure, Except.pure, Particles.clear, Retina.reset]

/-- On a not-started container whose `retina` was `delete`d, `destroy()`
throws (`this.retina.reset()` on `undefined`). -/
theorem destroy_err_noRetina (c : Container) (hst : c.started = false)
    (hr : c.«retina» = none) : c.destroy.isOk = false := by
  simp [Container.destroy, stop_noop c hst, Container.req, hr,
    Bind.bind, Except.bind, Except.isOk, Except.toBool]

/-- On a not-started container whose `eventListeners` was `delete`d,
`start()` throws (`this.eventListeners.addListeners()` on `undefined`)
before reaching `play()`. -/
theorem start_err_noListeners (c : Container) (hst : c.started = false)
    (he : c.eventListeners = none) (avail : List Plugin) (ds : List ShapeDrawer) :
    (c.start avail ds).isOk = false := by
  simp [Container.start, hst, Container.req, he, Bind.bind, Except.bind, Except.isOk, Except.toBool]

/-- `play()` always appends exactly one fresh frame request to the pending
queue, cancelling nothing. -/
theorem play_outstanding (c : Container) (force : Bool) :
    (c.play force).outstanding = c.outstanding ++ [c.nextHandle] := by
  rcases hp : c.paused <;> rcases hf : force <;>
    simp [Container.play, Container.requestFrame, hp, hf]

/-- `play()` overwrites the stored handle with the fresh one. -/
theorem play_handle (c : Container) (force : Bool) :
    (c.play force).drawAnimationFrame = some c.nextHandle := by
  rcases hp : c.paused <;> rcases hf : force <;>
    simp [Container.play, Container.requestFrame, hp, hf]

/-- After `play()` the `paused` flag is always false. -/
theorem play_paused (c : Container) (force : Bool) : (c.play force).paused = false := by
  rcases hp : c.paused <;> rcases hf : force <;>
    simp [Container.play, Container.requestFrame, hp, hf]

/-- Without `force`, `play()` on a non-paused container skips the plugin
notification and the `lastFrameTime` reset. -/
theorem play_noUpdate (c : Container) (h : c.paused = false) :
    (c.play false).plugins = c.plugins ∧
    (c.play false).lastFrameTime = c.lastFrameTime := by
  simp [Container.play, Container.requestFrame, h]

/-- When `paused || force` holds, `play()` notifies the play-capable plugins
and resets `lastFrameTime` to the current time. -/
theorem play_update (c : Container) (force : Bool) (h : (c.paused || force) = true) :
    (c.play force).plugins = c.plugins.map Plugin.notifyPlay ∧
    (c.play force).lastFrameTime = c.timeNow := by
  rcases hp : c.paused <;> rcases hf : force <;> rw [hp, hf] at h <;>
    simp [Container.play, Container.requestFrame, hp, hf] <;> simp at h

/-- After `pause()` no handle is stored. -/
theorem pause_handle (c : Container) : c.pause.drawAnimationFrame = none := by
  unfold Container.pause Container.cancelAnimation
  cases hd : c.drawAnimationFrame <;> dsimp only <;> split_ifs <;> simp [hd]

/-- `pause()` on a container whose pending queue holds exactly the tracked
request (or nothing) empties the queue. -/
theorem pause_outstanding_tracked (c : Container)
    (hout : c.outstanding = c.drawAnimationFrame.toList) :
    c.pause.outstanding = [] := by
  unfold Container.pause Container.cancelAnimation
  cases hd : c.drawAnimationFrame <;> rw [hd] at hout <;> dsimp only <;>
    split_ifs <;> simp [hout]

/-- `pause()` on a non-paused container notifies the pause-capable plugins. -/
theorem pause_plugins_notPaused (c : Container) (h : c.paused = false) :
    c.pause.plugins = c.plugins.map Plugin.notifyPause := by
  unfold Container.pause Container.cancelAnimation
  cases c.drawAnimationFrame <;> dsimp only <;> split_ifs <;> simp_all

/-- `pause()` on an already-paused container skips the plugin notification. -/
theorem pause_plugins_paused (c : Container) (h : c.paused = true) :
    c.pause.plugins = c.plugins := by
  unfold Container.pause Container.cancelAnimation
  cases c.drawAnimationFrame <;> dsimp only <;> split_ifs <;> simp_all

/-- `pause()` on a non-paused, non-hidden container sets the paused flag. -/
theorem pause_paused_set (c : Container) (h : c.paused = false)
    (hh : c.pageHidden = false) : c.pause.paused = true := by
  unfold Container.pause Container.cancelAnimation
  cases c.drawAnimationFrame <;> dsimp only <;> split_ifs <;> simp_all

/-! ## Claims -/

/-- Claim C2 counterexample: starting from the fresh container, a second
`play()` issued while frame request `0` is still scheduled leaves two requests
outstanding (`[0, 1]`); the first request was stored as the handle but is
neither cancelled nor replaced in the pending queue. -/
theorem C2_counterexample :
    (c0.play false).drawAnimationFrame = some 0 ∧
    cDouble.outstanding = [0, 1] := by decide

/-- Claim C2 (amended): a `play()` call issued while a frame request is
already scheduled does NOT cancel or replace that request: `play()` always
appends exactly one fresh request to the pending queue and only overwrites the
stored handle, so re-entrant `play()` calls stack outstanding requests. -/
theorem C2_amended (c : Container) (force : Bool) :
    (c.play force).outstanding = c.outstanding ++ [c.nextHandle] ∧
    (c.play force).drawAnimationFrame = some c.nextHandle :=
  ⟨play_outstanding c force, play_handle c force⟩

/-- Claim C7 counterexample: on the page-visible container `cDouble` (reached
from the fresh container by two `play()` calls), `pause()` immediately
followed by `play()` yields `getAnimationStatus() === true` but TWO scheduled
frame requests pending, not exactly one. -/
theorem C7_counterexample :
    cDouble.pageHidden = false ∧
    ((cDouble.pause).play false).getAnimationStatus = true ∧
    ((cDouble.pause).play false).outstanding.length = 2 := by decide

/-- Claim C7 (amended): `pause()` empties the stored handle, cancelling the
tracked request; it notifies pause-capable plugins only when the container is
not already paused, and sets the paused flag only when the page is not hidden;
on a not-hidden container whose pending requests are exactly those tracked by
the stored handle, `pause()` immediately followed by `play()` yields
`getAnimationStatus() === true` with exactly one scheduled frame request
pending. -/
theorem C7_amended (c : Container) (hh : c.pageHidden = false)
    (hout : c.outstanding = c.drawAnimationFrame.toList) :
    c.pause.drawAnimationFrame = none ∧
    (c.paused = false → c.pause.plugins = c.plugins.map Plugin.notifyPause) ∧
    (c.paused = true → c.pause.plugins = c.plugins) ∧
    (c.paused = false → c.pause.paused = true) ∧
    (c.pause.play false).getAnimationStatus = true ∧
    (c.pause.play false).outstanding.length = 1 := by
  refine ⟨pause_handle c, fun h => pause_plugins_notPaused c h,
    fun h => pause_plugins_paused c h, fun h => pause_paused_set c h hh, ?_, ?_⟩
  · simp [Container.getAnimationStatus, play_paused]
  · rw [play_outstanding, pause_outstanding_tracked c hout]
    rfl

/-- Claim C7 witness: the fresh container after one `play()` call satisfies
the hypotheses (page visible, pending queue = the tracked request). -/
theorem C7_witness :
    cPlaying.pause.drawAnimationFrame = none ∧
    (cPlaying.paused = false → cPlaying.pause.plugins = cPlaying.plugins.map Plugin.notifyPause) ∧
    (cPlaying.paused = true → cPlaying.pause.plugins = cPlaying.plugins) ∧
    (cPlaying.paused = false → cPlaying.pause.paused = true) ∧
    (cPlaying.pause.play false).getAnimationStatus = true ∧
    (cPlaying.pause.play false).outstanding.length = 1 :=
  C7_amended cPlaying (by decide) (by decide)

/-- Claim C8: `start()` on an already-started container and `stop()` on a
not-started container are no-ops returning the state unchanged, with no
error. -/
theorem C8_reentrancy (c : Container) (avail : List Plugin) (ds : List ShapeDrawer) :
    (c.started = true → c.start avail ds = .ok c) ∧
    (c.started = false → c.stop = .ok c) :=
  ⟨fun h => start_noop c h avail ds, fun h => stop_noop c h⟩

/-- Claim C8 witness: a started copy of the fresh container and the fresh
(not-started) container. -/
theorem C8_witness :
    ({ c0 with started := true } : Container).start [testPlugin] []
      = .ok { c0 with started := true } ∧
    c0.stop = .ok c0 :=
  ⟨(C8_reentrancy { c0 with started := true } [testPlugin] []).1 rfl,
   (C8_reentrancy c0 [] []).2 rfl⟩

/-- Claim C10: `play(force)` with `force` true on a non-paused container still
notifies every plugin with a play hook and resets `lastFrameTime` to the
current time; `play()` without force on a non-paused container skips both; in
every case `play()` issues one new animation-frame request and leaves the
paused flag false. -/
theorem C10_play (c : Container) :
    (c.paused = false →
      (c.play true).plugins = c.plugins.map Plugin.notifyPlay ∧
      (c.play true).lastFrameTime = c.timeNow) ∧
    (c.paused = false →
      (c.play false).plugins = c.plugins ∧
      (c.play false).lastFrameTime = c.lastFrameTime) ∧
    (∀ force, (c.play force).paused = false ∧
      (c.play force).drawAnimationFrame = some c.nextHandle ∧
      (c.play force).outstanding = c.outstanding ++ [c.nextHandle]) := by
  refine ⟨fun h => play_update c true (by simp), fun h => play_noUpdate c h,
    fun force => ⟨play_paused c force, play_handle c force, play_outstanding c force⟩⟩

/-- Claim C10 witness: the container after one `play()` is not paused; forced
and unforced `play()` behave as claimed on it. -/
theorem C10_witness :
    ((cPlaying.play true).plugins = cPlaying.plugins.map Plugin.notifyPlay ∧
     (cPlaying.play true).lastFrameTime = cPlaying.timeNow) ∧
    ((cPlaying.play false).plugins = cPlaying.plugins ∧
     (cPlaying.play false).lastFrameTime = cPlaying.lastFrameTime) ∧
    ((cPlaying.play false).paused = false ∧
     (cPlaying.play false).drawAnimationFrame = some cPlaying.nextHandle ∧
     (cPlaying.play false).outstanding = cPlaying.outstanding ++ [cPlaying.nextHandle]) :=
  ⟨(C10_play cPlaying).1 (by decide), (C10_play cPlaying).2.1 (by decide),
   (C10_play cPlaying).2.2 false⟩

/-- Claim C1 counterexample: the first `destroy()` of the fresh container
succeeds and marks it destroyed, but a second `destroy()` on the destroyed
container is not a no-op: it throws (a `TypeError` on `this.retina.reset()`,
`retina` having been `delete`d) instead of raising no error. -/
theorem C1_counterexample :
    c0.destroy.isOk = true ∧
    c0destroyed.destroyed = true ∧
    c0destroyed.destroy.isOk = false := by decide

/-- Claim C1 (amended): on any live container (retina, canvas, particles and
event listeners present), `destroy()` succeeds and leaves `destroyed = true`
and `started = false`, and a subsequent `start()` cannot return the instance
to a playing state (it throws on the deleted event listeners before reaching
`play()`); however `destroy()` is not idempotent: a second `destroy()` throws
on the deleted retina rather than being a no-op. -/
theorem C1_destroy (c : Container)
    (hr : c.«retina».isSome) (hcv : c.canvas.isSome)
    (hp : c.particles.isSome) (he : c.eventListeners.isSome) :
    ∃ c2, c.destroy = .ok c2 ∧ c2.destroyed = true ∧ c2.started = false ∧
      c2.destroy.isOk = false ∧
      ∀ avail ds, (c2.start avail ds).isOk = false := by
  obtain ⟨r, hr⟩ := Option.isSome_iff_exists.mp hr
  obtain ⟨cv, hcv⟩ := Option.isSome_iff_exists.mp hcv
  obtain ⟨p, hp⟩ := Option.isSome_iff_exists.mp hp
  obtain ⟨u, he⟩ := Option.isSome_iff_exists.mp he
  cases hst : c.started
  · have hd : c.destroy = .ok { c with
        interactivity := none, options := none, «retina» := none, canvas := none,
        particles := none, bubble := none, repulse := none, drawer := none,
        eventListeners := none, drawers := [], destroyed := true } := by
      simp [Container.destroy, stop_noop c hst, Container.req, hr, hcv,
        Bind.bind, Except.bind, pure, Except.pure]
    refine ⟨_, hd, rfl, hst, ?_, ?_⟩
    · apply destroy_err_noRetina
      · exact hst
      · rfl
    · intro avail ds
      apply start_err_noListeners
      · exact hst
      · rfl
  · have hstop := stop_run c p hst (by rw [he]; rfl) hp (by rw [hr]; rfl)
      (by rw [hcv]; rfl)
    have hps : ({ c with started := false } : Container).pause.started = false := by
      rw [pause_started]
    have hpr : ({ c with started := false } : Container).pause.canvas = some cv := by
      rw [pause_canvas]; exact hcv
    have hd : c.destroy = .ok { ({ c with started := false } : Container).pause with
        interactivity := none, options := none, «retina» := none, canvas := none,
        particles := none, bubble := none, repulse := none, drawer := none,
        eventListeners := none, plugins := [], drawers := [], destroyed := true } := by
      simp [Container.destroy, hstop, Container.req, hpr,
        Bind.bind, Except.bind, pure, Except.pure]
    refine ⟨_, hd, rfl, hps, ?_, ?_⟩
    · apply destroy_err_noRetina
      · exact hps
      · rfl
    · intro avail ds
      apply start_err_noListeners
      · exact hps
      · rfl

/-- Claim C1 witness: the fresh container is live. -/
theorem C1_witness :
    ∃ c2, c0.destroy = .ok c2 ∧ c2.destroyed = true ∧ c2.started = false ∧
      c2.destroy.isOk = false ∧
      ∀ avail ds, (c2.start avail ds).isOk = false :=
  C1_destroy c0 (by decide) (by decide) (by decide) (by decide)

/-- The density target is nonnegative for nonnegative dimensions and
parameters. -/
theorem densityTarget_nonneg (el : CanvasElement) (r : Retina) (o : ContainerOptions)
    (hw : 0 ≤ el.width) (hh : 0 ≤ el.height) (hpr : 0 ≤ r.pixelRatio)
    (hn : 0 ≤ o.number.value) (hd : 0 ≤ o.number.density.area) :
    0 ≤ densityTarget el r o := by
  unfold densityTarget
  apply div_nonneg _ hd
  apply mul_nonneg _ hn
  split_ifs
  · apply div_nonneg (div_nonneg (mul_nonneg hw hh) (by norm_num))
    have : (0 : ℚ) ≤ 2 := by norm_num
    exact mul_nonneg hpr this
  · exact div_nonneg (mul_nonneg hw hh) (by norm_num)

/-- One enabled run of `densityAutoParticles` lands the count exactly on the
target whenever the target is nonnegative. -/
theorem densityAuto_count (c : Container) (cv : Canvas) (el : CanvasElement)
    (o : ContainerOptions) (r : Retina) (p : Particles)
    (hc : c.canvas = some cv) (hel : cv.element = some el)
    (ho : c.options = some o) (hr : c.«retina» = some r) (hp : c.particles = some p)
    (hen : o.number.density.enable = true) (ht : 0 ≤ densityTarget el r o) :
    c.densityAutoParticles
      = .ok { c with particles := some { count := densityTarget el r o } } := by
  rw [densityAuto_run c cv el o r p hc hel ho hr hp hen]
  congr 2
  rcases lt_trichotomy p.count (densityTarget el r o) with h | h | h
  · rw [if_pos h]
    congr 1
    show Particles.mk (p.count + |densityTarget el r o - p.count|) = _
    rw [abs_of_pos (by linarith)]
    congr 1
    ring
  · rw [if_neg (by rw [h]; exact lt_irrefl _), if_neg (by rw [h]; exact lt_irrefl _)]
    congr 1
    cases p with
    | mk cnt => simpa using h
  · rw [if_neg (not_lt_of_lt h), if_pos h]
    congr 1
    show Particles.mk (p.count - min (p.count - densityTarget el r o) p.count) = _
    rw [min_eq_left (by linarith)]
    congr 1
    ring

/-- Claim C4: with a backing element and density enabled,
`densityAutoParticles()` computes `area = width * height / 1000`, divides the
area by `2 * pixelRatio` on a retina surface, computes
`target = area * configuredNumber / density`, pushes `target - count` when
`count < target`, removes `count - target` when `count > target`, and does
nothing when they are equal; without a backing element or with density
disabled the call is a no-op. -/
theorem C4_density (c : Container) (cv : Canvas) (o : ContainerOptions)
    (r : Retina) (p : Particles)
    (hc : c.canvas = some cv) (ho : c.options = some o)
    (hr : c.«retina» = some r) (hp : c.particles = some p) :
    (cv.element = none → c.densityAutoParticles = .ok c) ∧
    (o.number.density.enable = false → c.densityAutoParticles = .ok c) ∧
    (∀ el, cv.element = some el → o.number.density.enable = true →
      c.densityAutoParticles = .ok { c with particles := some (
        if p.count < densityTarget el r o then
          p.push (densityTarget el r o - p.count)
        else if p.count > densityTarget el r o then
          p.removeQuantity (p.count - densityTarget el r o)
        else p) }) := by
  refine ⟨fun hel => densityAuto_noop_noElement c cv hc hel,
    fun hen => densityAuto_noop_disabled c cv o hc ho hen,
    fun el hel hen => ?_⟩
  have habs : (if p.count < densityTarget el r o then
        p.push |densityTarget el r o - p.count|
      else if p.count > densityTarget el r o then
        p.removeQuantity (p.count - densityTarget el r o)
      else p)
      = (if p.count < densityTarget el r o then
        p.push (densityTarget el r o - p.count)
      else if p.count > densityTarget el r o then
        p.removeQuantity (p.count - densityTarget el r o)
      else p) := by
    by_cases h : p.count < densityTarget el r o
    · rw [if_pos h, if_pos h, abs_of_pos (by linarith)]
    · rw [if_neg h, if_neg h]
  rw [densityAuto_run c cv el o r p hc hel ho hr hp hen, habs]

/-- Claim C4 witness: the fresh container (1000×1000 element, non-retina,
value 100 over density 800, zero particles). -/
theorem C4_witness :
    c0.densityAutoParticles = .ok { c0 with particles := some (
      if (Particles.mk 0).count < densityTarget ⟨1000, 1000⟩ testRetina testOptions then
        (Particles.mk 0).push
          (densityTarget ⟨1000, 1000⟩ testRetina testOptions - (Particles.mk 0).count)
      else if (Particles.mk 0).count > densityTarget ⟨1000, 1000⟩ testRetina testOptions then
        (Particles.mk 0).removeQuantity
          ((Particles.mk 0).count - densityTarget ⟨1000, 1000⟩ testRetina testOptions)
      else Particles.mk 0) } :=
  (C4_density c0 testCanvas testOptions testRetina (Particles.mk 0)
    rfl rfl rfl rfl).2.2 ⟨1000, 1000⟩ rfl rfl

/-- Claim C5 counterexample: with computed area 1000, `configuredNumber = 1`
and `density = 3`, one call lands the count on the exact rational `1000/3`,
which is not `round(1 * 1000 / 3) = 333` — the count does not stabilise at the
rounded value. -/
theorem C5_counterexample :
    c13.densityAutoParticles
      = .ok { c13 with particles := some { count := densityTarget ⟨1000, 1000⟩ testRetina opts13 } } ∧
    densityTarget ⟨1000, 1000⟩ testRetina opts13 = 1000 / 3 ∧
    round ((1 : ℚ) * 1000 / 3) = 333 ∧
    (1000 / 3 : ℚ) ≠ ((333 : ℤ) : ℚ) := by
  refine ⟨densityAuto_count c13 testCanvas ⟨1000, 1000⟩ opts13 testRetina (Particles.mk 0)
      rfl rfl rfl rfl rfl rfl (by norm_num [densityTarget, opts13, testRetina]),
    by norm_num [densityTarget, opts13, testRetina],
    by norm_num [round_eq], by norm_num⟩

/-- Claim C5 (amended): `densityAutoParticles()` is idempotent under
unchanged inputs — one enabled call lands the count exactly on the target and
a second call with the same inputs is a fixed point — and with computed area
1000 the count stabilises within one call at the exact rational
`N * 1000 / D` (which equals `round(N * 1000 / D)` only when that quotient is
an integer). -/
theorem C5_idempotent (c : Container) (cv : Canvas) (el : CanvasElement)
    (o : ContainerOptions) (r : Retina) (p : Particles)
    (hc : c.canvas = some cv) (hel : cv.element = some el)
    (ho : c.options = some o) (hr : c.«retina» = some r) (hp : c.particles = some p)
    (hen : o.number.density.enable = true)
    (hw : 0 ≤ el.width) (hh : 0 ≤ el.height) (hpr : 0 ≤ r.pixelRatio)
    (hn : 0 ≤ o.number.value) (hd : 0 ≤ o.number.density.area) :
    c.densityAutoParticles
        = .ok { c with particles := some { count := densityTarget el r o } } ∧
    ({ c with particles := some { count := densityTarget el r o } }
        : Container).densityAutoParticles
      = .ok { c with particles := some { count := densityTarget el r o } } ∧
    (r.isRetina = false → el.width * el.height / 1000 = 1000 →
      densityTarget el r o = o.number.value * 1000 / o.number.density.area) := by
  have ht := densityTarget_nonneg el r o hw hh hpr hn hd
  refine ⟨densityAuto_count c cv el o r p hc hel ho hr hp hen ht, ?_, ?_⟩
  · exact densityAuto_count { c with particles := some { count := densityTarget el r o } }
      cv el o r { count := densityTarget el r o } hc hel ho hr rfl hen ht
  · intro hret harea
    simp [densityTarget, hret, harea]
    ring

/-- Claim C5 witness: the container `c13` (area 1000, `N = 1`, `D = 3`). -/
theorem C5_witness :
    c13.densityAutoParticles
        = .ok { c13 with particles := some { count := densityTarget ⟨1000, 1000⟩ testRetina opts13 } } ∧
    ({ c13 with particles := some { count := densityTarget ⟨1000, 1000⟩ testRetina opts13 } }
        : Container).densityAutoParticles
      = .ok { c13 with particles := some { count := densityTarget ⟨1000, 1000⟩ testRetina opts13 } } ∧
    densityTarget ⟨1000, 1000⟩ testRetina opts13
      = opts13.number.value * 1000 / opts13.number.density.area :=
  have X := C5_idempotent c13 testCanvas ⟨1000, 1000⟩ opts13 testRetina (Particles.mk 0)
    rfl rfl rfl rfl rfl rfl (by norm_num) (by norm_num) (by decide) (by decide)
    (by decide)
  ⟨X.1, X.2.1, X.2.2 rfl (by norm_num)⟩

/-- Field-by-field characterisation of `PolygonMask.load` on defined input:
`scale`/`type` take the incoming value when present, `url` likewise;
`enable` takes the incoming value when present and is otherwise recomputed
from the already-updated `type`; `inline` is delegated the incoming `inline`
or the synthesized `{arrangement: inlineArrangement}` fallback. -/
theorem load_fields (m : PolygonMask) (fs : LocalSvg) (d : PolygonMaskInput) :
    (m.load fs (some d)).scale = d.scale.getD m.scale ∧
    (m.load fs (some d)).type = d.type.getD m.type ∧
    (m.load fs (some d)).url = (match d.url with | some u => some u | none => m.url) ∧
    (m.load fs (some d)).enable = (match d.enable with
      | some e => e
      | none => decide ((d.type.getD m.type) ≠ MaskType.noneType)) ∧
    (m.load fs (some d)).inline
      = m.inline.load (some (d.inline.getD { arrangement := d.inlineArrangement })) := by
  obtain ⟨dd, de, di, dia, dm, dp, ds, dt, du, dda⟩ := d
  rcases ds <;> rcases dt <;> rcases de <;> rcases du <;>
    rcases dda with _ | (_ | _) <;> rcases dp <;>
    simp [PolygonMask.load]

/-- Claim C3 counterexample: `maskEnabled` has `enable == true`; loading the
defined input `{}` (whose `enable` field is undefined) does not keep that
prior value — `enable` drops back to `false`. -/
theorem C3_counterexample :
    maskEnabled.enable = true ∧
    PolygonMaskInput.empty.enable = none ∧
    (maskEnabled.load svg0 (some PolygonMaskInput.empty)).enable = false := by decide

/-- Claim C3 (amended): on defined input, the scalar fields `scale`, `type`
and `url` keep their prior values whenever the corresponding incoming field is
undefined; `enable`, however, is not kept — when `data.enable` is undefined it
is recomputed as `type !== none` from the updated `type`. -/
theorem C3_scalarMerge (m : PolygonMask) (fs : LocalSvg) (d : PolygonMaskInput) :
    (d.scale = none → (m.load fs (some d)).scale = m.scale) ∧
    (d.type = none → (m.load fs (some d)).type = m.type) ∧
    (d.url = none → (m.load fs (some d)).url = m.url) ∧
    (d.enable = none →
      (m.load fs (some d)).enable
        = decide ((m.load fs (some d)).type ≠ MaskType.noneType)) := by
  obtain h := load_fields m fs d
  refine ⟨fun hs => ?_, fun ht => ?_, fun hu => ?_, fun he => ?_⟩
  · rw [h.1, hs]
    rfl
  · rw [h.2.1, ht]
    rfl
  · rw [h.2.2.1, hu]
  · rw [h.2.2.2.1, he, h.2.1]

/-- Claim C3 witness: the default mask under the all-absent input `{}`. -/
theorem C3_witness :
    (mask0.load svg0 (some PolygonMaskInput.empty)).scale = mask0.scale ∧
    (mask0.load svg0 (some PolygonMaskInput.empty)).type = mask0.type ∧
    (mask0.load svg0 (some PolygonMaskInput.empty)).url = mask0.url ∧
    (mask0.load svg0 (some PolygonMaskInput.empty)).enable
      = decide ((mask0.load svg0 (some PolygonMaskInput.empty)).type ≠ MaskType.noneType) :=
  have X := C3_scalarMerge mask0 svg0 PolygonMaskInput.empty
  ⟨X.1 rfl, X.2.1 rfl, X.2.2.1 rfl, X.2.2.2 rfl⟩

/-- Claim C6: loading an input with no `inline` field but with the deprecated
`inlineArrangement` set to `x` yields `inline.arrangement == x`. -/
theorem C6_inlineArrangement (m : PolygonMask) (fs : LocalSvg) (d : PolygonMaskInput)
    (x : String) (hi : d.inline = none) (ha : d.inlineArrangement = some x) :
    (m.load fs (some d)).inline.arrangement = x := by
  have h := (load_fields m fs d).2.2.2.2
  rw [h, hi, ha]
  rfl

/-- Claim C6 witness: the default mask under `{inlineArrangement: "per-point"}`. -/
theorem C6_witness :
    (mask0.load svg0 (some { PolygonMaskInput.empty with
        inlineArrangement := some "per-point" })).inline.arrangement = "per-point" :=
  C6_inlineArrangement mask0 svg0
    { PolygonMaskInput.empty with inlineArrangement := some "per-point" } "per-point" rfl rfl

/-- Claim C9: when `data.enable` is undefined, `enable` is set to
`type !== none` using the type value after `data.type` has been applied: a
non-none incoming type yields `enable == true`, and a resulting none type
yields `enable == false`. -/
theorem C9_enableRecompute (m : PolygonMask) (fs : LocalSvg) (d : PolygonMaskInput)
    (he : d.enable = none) :
    (m.load fs (some d)).enable = decide ((d.type.getD m.type) ≠ MaskType.noneType) ∧
    (∀ t, d.type = some t → t ≠ MaskType.noneType → (m.load fs (some d)).enable = true) ∧
    (d.type.getD m.type = MaskType.noneType → (m.load fs (some d)).enable = false) := by
  have h := (load_fields m fs d).2.2.2.1
  rw [he] at h
  refine ⟨h, fun t ht hn => ?_, fun hnone => ?_⟩
  · rw [h, ht]
    simp [hn]
  · rw [h, hnone]
    simp

/-- Claim C9 witness: the default (none-typed, disabled) mask loaded with
`{type: "inside"}` and no `enable` comes out enabled. -/
theorem C9_witness :
    (mask0.load svg0 (some { PolygonMaskInput.empty with
        type := some MaskType.inside })).enable = true :=
  (C9_enableRecompute mask0 svg0
    { PolygonMaskInput.empty with type := some MaskType.inside } rfl).2.1
    MaskType.inside rfl (by decide)

end TsParticles
